import Mathlib

/-!
Verification of the marker tracking state machine of `src/marker-tracker.js`.

The per-frame update function `updateMarkerTracking(frame, referenceSpace)`
is embedded as a pure Lean function over an explicit state. Host-runtime
behaviour observed by the function during one call (presence of the
`getImageTrackingResults` capability, whether enumeration throws, the list
of tracking-result entries, and the outcome of the single `frame.getPose`
query on the matched entry) is packaged in a `Frame` record. Callback
invocations are modelled as an emitted event list; the module-level
mutable variables `isMarkerDetected` / `currentMarkerPose` / the
registered-trackable flag form `TrackerState`.
-/

namespace MarkerTracker

/-- Poses are opaque tokens; only identity matters to the state machine. -/
abbrev Pose := Nat

/-- The `trackingState` string of a tracking-result entry: `'tracked'`,
`'emulated'`, or anything else (the code's final `else` treats every other
value like `'untracked'`). -/
inductive TrackingState where
  | tracked
  | emulated
  | untracked
  deriving DecidableEq

/-- One entry of the array returned by `frame.getImageTrackingResults()`:
whether `result.trackedImage === trackableImage`, and its quality tag. -/
structure ResultEntry where
  matchesTrackable : Bool
  trackingState : TrackingState
  deriving DecidableEq

/-- Outcome of the (at most one) `frame.getPose(imageSpace, referenceSpace)`
call in this update: the collaborator throws, returns null, or returns a
pose. -/
inductive PoseQueryResult where
  | throws
  | missing
  | found (p : Pose)
  deriving DecidableEq

/-- Everything `updateMarkerTracking` can observe of one `XRFrame`. -/
structure Frame where
  hasGetResults : Bool
  enumThrows : Bool
  results : List ResultEntry
  poseQuery : PoseQueryResult
  deriving DecidableEq

/-- The module-level mutable state read and written by the update step:
`trackableImage !== null`, `isMarkerDetected`, `currentMarkerPose`. -/
structure TrackerState where
  trackableRegistered : Bool
  isMarkerDetected : Bool
  currentMarkerPose : Option Pose
  deriving DecidableEq

/-- A callback invocation: `onMarkerDetectedCallback(pose)` or
`onMarkerLostCallback()`. -/
inductive Event where
  | detected (p : Pose)
  | lost
  deriving DecidableEq

/-- Return value, post-state and emitted callback events of one call. -/
structure UpdateOutcome where
  ret : Option Pose
  state : TrackerState
  events : List Event
  deriving DecidableEq

/-- The first-match scan
`for (const result of trackingResults) if (result.trackedImage === trackableImage) ...`. -/
def findMarkerResult (results : List ResultEntry) : Option ResultEntry :=
  results.find? (fun r => r.matchesTrackable)

/-- `handleMarkerLost()`: sets `isMarkerDetected = false`,
`currentMarkerPose = null` (the `lost` event records the callback call). -/
def handleMarkerLostState (s : TrackerState) : TrackerState :=
  { s with isMarkerDetected := false, currentMarkerPose := none }

/-- Shallow embedding of `updateMarkerTracking(frame, referenceSpace)`
(src/marker-tracker.js lines 212-299). `hasRefSpace` models
`referenceSpace` being non-null. The try/catch around enumeration and
pose query appears as the `enumThrows` / `PoseQueryResult.throws` cases,
which return null and leave the state untouched. -/
def updateMarkerTracking (s : TrackerState) (hasRefSpace : Bool) (frame : Frame) :
    UpdateOutcome :=
  if !s.trackableRegistered || !hasRefSpace then ⟨none, s, []⟩
  else if !frame.hasGetResults then ⟨none, s, []⟩
  else if frame.enumThrows then ⟨none, s, []⟩
  else if frame.results.isEmpty then
    if s.isMarkerDetected then ⟨none, handleMarkerLostState s, [Event.lost]⟩
    else ⟨none, s, []⟩
  else
    match findMarkerResult frame.results with
    | none =>
      if s.isMarkerDetected then ⟨none, handleMarkerLostState s, [Event.lost]⟩
      else ⟨none, s, []⟩
    | some r =>
      match r.trackingState with
      | TrackingState.tracked =>
        match frame.poseQuery with
        | PoseQueryResult.found p =>
          if !s.isMarkerDetected then
            ⟨some p,
             { s with isMarkerDetected := true, currentMarkerPose := some p },
             [Event.detected p]⟩
          else
            ⟨some p,
             { s with isMarkerDetected := true, currentMarkerPose := some p },
             []⟩
        | PoseQueryResult.missing => ⟨none, s, []⟩
        | PoseQueryResult.throws => ⟨none, s, []⟩
      | TrackingState.emulated =>
        match frame.poseQuery with
        | PoseQueryResult.found p =>
          if s.isMarkerDetected then
            ⟨some p, { s with currentMarkerPose := some p }, []⟩
          else ⟨none, s, []⟩
        | PoseQueryResult.missing =>
          if s.isMarkerDetected then ⟨none, handleMarkerLostState s, [Event.lost]⟩
          else ⟨none, s, []⟩
        | PoseQueryResult.throws => ⟨none, s, []⟩
      | TrackingState.untracked =>
        if s.isMarkerDetected then ⟨none, handleMarkerLostState s, [Event.lost]⟩
        else ⟨none, s, []⟩

/-- Iterated per-frame calls: final state, the list of return values, and
all events emitted in order. Each call supplies its own
`referenceSpace`-present flag alongside the frame. -/
def runUpdates (s : TrackerState) :
    List (Bool × Frame) → TrackerState × List (Option Pose) × List Event
  | [] => (s, [], [])
  | (b, f) :: rest =>
    let o := updateMarkerTracking s b f
    let r := runUpdates o.state rest
    (r.1, o.ret :: r.2.1, o.events ++ r.2.2)

/-- Number of on-detected callback invocations in an event list. -/
def countDetected (evs : List Event) : Nat :=
  evs.countP (fun e => match e with | Event.detected _ => true | Event.lost => false)

/-! ## Initialization (`initializeMarkerTracking`, lines 152-179)

Errors are an inductive type, one constructor per `throw` site; the only
message containing the substring `'expected on Mac/Desktop'` (the string
that `initializeMarkerTracking` tests with `error.message.includes`) is
the one thrown for an unsupported platform in `registerTrackableImage`. -/

/-- The distinct error messages thrown during initialization. -/
inductive InitError where
  /-- `fetch` response not ok in `loadMarkerImage`. -/
  | fetchNotOk
  /-- blob under 200 bytes whose text is a Git LFS pointer. -/
  | lfsPointer
  /-- blob under 200 bytes that is not an LFS pointer. -/
  | blobTooSmall
  /-- `createImageBitmap` rejected. -/
  | decodeFailed
  /-- image-tracking API absent and `isUnsupportedPlatform()` true; this is
  the message containing `'expected on Mac/Desktop'`. -/
  | platformUnsupported
  /-- image-tracking API absent on a platform the heuristic deems capable
  (`'Try enabling WebXR Incubations'`). -/
  | apiUnavailable
  /-- `requestImageTrackableImage` resolved to a falsy value. -/
  | createFailed
  /-- `requestImageTrackableImage` rejected. -/
  | registrationRejected
  deriving DecidableEq

/-- `error.message.includes('expected on Mac/Desktop')`. -/
def messageExpectedOnMacDesktop : InitError → Bool
  | InitError.platformUnsupported => true
  | _ => false

/-- What `loadMarkerImage` observes of the fetched resource. -/
structure Blob where
  size : Nat
  isLfsPointerText : Bool
  decodable : Bool
  deriving DecidableEq

/-- Outcome of `fetch(MARKER_CONFIG.imagePath)`. -/
inductive FetchOutcome where
  | notOk
  | ok (b : Blob)
  deriving DecidableEq

/-- Shallow embedding of `loadMarkerImage` (lines 25-78): checks response
status, the under-200-byte LFS-pointer / corruption cases, then decoding. -/
def loadMarkerImage : FetchOutcome → Except InitError Unit
  | FetchOutcome.notOk => Except.error InitError.fetchNotOk
  | FetchOutcome.ok b =>
    if b.size < 200 then
      if b.isLfsPointerText then Except.error InitError.lfsPointer
      else Except.error InitError.blobTooSmall
    else if b.decodable then Except.ok ()
    else Except.error InitError.decodeFailed

/-- Outcome of `session.requestImageTrackableImage` when the API exists. -/
inductive RegistrationOutcome where
  | rejects
  | returnsNull
  | returnsHandle
  deriving DecidableEq

/-- What `registerTrackableImage` observes of the host platform:
`('ImageTracking' in window) && session.requestImageTrackableImage`,
the `isUnsupportedPlatform()` user-agent heuristic, and the registration
call's outcome. -/
structure Platform where
  capabilityPresent : Bool
  unsupportedPlatform : Bool
  registration : RegistrationOutcome
  deriving DecidableEq

/-- Shallow embedding of `registerTrackableImage` (lines 98-145): on a
missing API it throws the platform-unsupported message when the heuristic
says unsupported, otherwise the API-unavailable message; with the API
present the registration call may reject, return null (rethrown as
`createFailed`), or yield a handle. -/
def registerTrackableImage (p : Platform) : Except InitError Unit :=
  if !p.capabilityPresent then
    if p.unsupportedPlatform then Except.error InitError.platformUnsupported
    else Except.error InitError.apiUnavailable
  else
    match p.registration with
    | RegistrationOutcome.rejects => Except.error InitError.registrationRejected
    | RegistrationOutcome.returnsNull => Except.error InitError.createFailed
    | RegistrationOutcome.returnsHandle => Except.ok ()

/-- Shallow embedding of `initializeMarkerTracking` (lines 152-179):
`Except.ok true` means a handle was returned, `Except.ok false` the
deliberate `return null` for the expected-platform case; every other
error is rethrown. -/
def initializeMarkerTracking (fetch : FetchOutcome) (p : Platform) :
    Except InitError Bool :=
  match loadMarkerImage fetch with
  | Except.error e => Except.error e
  | Except.ok _ =>
    match registerTrackableImage p with
    | Except.ok _ => Except.ok true
    | Except.error e =>
      if messageExpectedOnMacDesktop e then Except.ok false
      else Except.error e

/-- Whether the module-level `trackableImage` variable is set after
initialization: assigned only on a successful registration (line 126). -/
def trackableRegisteredAfterInit (fetch : FetchOutcome) (p : Platform) : Bool :=
  match loadMarkerImage fetch with
  | Except.error _ => false
  | Except.ok _ =>
    match registerTrackableImage p with
    | Except.ok _ => true
    | Except.error _ => false

/-! ## Observation history for the pose invariant

The spec's invariant speaks of "the last quality tag observed". The code
reads `markerResult.trackingState` (line 253) exactly on the calls where a
matching entry was found after a successful enumeration; `Obs` records
that tag together with the detection state at that moment and whether the
frame's pose query returned a pose. -/

/-- One quality-tag observation. -/
structure Obs where
  tag : TrackingState
  wasDetected : Bool
  poseObtainable : Bool
  deriving DecidableEq

/-- Whether this frame's pose query returns a pose (as opposed to null or
throwing). -/
def poseQuerySucceeds (f : Frame) : Bool :=
  match f.poseQuery with
  | PoseQueryResult.found _ => true
  | _ => false

/-- The observation, if any, made by one update call: none on the early
returns and on enumeration throw, otherwise the matched entry's tag. -/
def stepObs (s : TrackerState) (hasRefSpace : Bool) (frame : Frame)
    (prev : Option Obs) : Option Obs :=
  if !s.trackableRegistered || !hasRefSpace then prev
  else if !frame.hasGetResults then prev
  else if frame.enumThrows then prev
  else
    match findMarkerResult frame.results with
    | none => prev
    | some r => some ⟨r.trackingState, s.isMarkerDetected, poseQuerySucceeds frame⟩

/-- Iterated updates carrying the last observation along. -/
def runWithObs : TrackerState → Option Obs → List (Bool × Frame) →
    TrackerState × Option Obs
  | s, obs, [] => (s, obs)
  | s, obs, (b, f) :: rest =>
    runWithObs (updateMarkerTracking s b f).state (stepObs s b f obs) rest

/-- The right-hand side of the spec's invariant, applied to the last
observation: the tag was Tracked, or Emulated while already detected with
an obtainable pose. -/
def obsSupportsPose : Option Obs → Bool
  | none => false
  | some o =>
    match o.tag with
    | TrackingState.tracked => true
    | TrackingState.emulated => o.wasDetected && o.poseObtainable
    | TrackingState.untracked => false

/-- The spec invariant: `currentPose` is non-null iff `isDetected` holds
and the last observation supports a pose. -/
def invC9 (s : TrackerState) (obs : Option Obs) : Bool :=
  s.currentMarkerPose.isSome == (s.isMarkerDetected && obsSupportsPose obs)

/-- A frame on which the catch block cannot be entered from the emulated
branch: its matching entry (if any) is not Emulated-with-throwing-pose-query.
The pose invariant below holds along sequences of such frames. -/
def frameSafeForC9 (f : Frame) : Bool :=
  match findMarkerResult f.results with
  | none => true
  | some r =>
    match r.trackingState, f.poseQuery with
    | TrackingState.emulated, PoseQueryResult.throws => false
    | _, _ => true

/-- Strengthened induction invariant: the pose is held exactly while
detected, and while detected the last observation supports a pose. -/
def invAuxC9 (s : TrackerState) (obs : Option Obs) : Bool :=
  (s.currentMarkerPose.isSome == s.isMarkerDetected) &&
  (!s.isMarkerDetected || obsSupportsPose obs)

/-! ## Theorems -/

/-- A successful first-match scan implies a nonempty result set. -/
theorem ne_nil_of_findMarkerResult {res : List ResultEntry} {r : ResultEntry}
    (h : findMarkerResult res = some r) : res ≠ [] := by
  intro he
  subst he
  simp [findMarkerResult] at h

/-- C1: on every update call, the detection flag goes from false to true
only when a matching entry carries quality Tracked and the pose query
returns a pose (after all guards passed without an enumeration throw),
and the on-detected callback fires exactly once on precisely those
Idle-to-Detected calls and on no other call. -/
theorem updateMarkerTracking_detected_edge (s : TrackerState) (b : Bool) (f : Frame) :
    (s.isMarkerDetected = false ∧
        (updateMarkerTracking s b f).state.isMarkerDetected = true →
      s.trackableRegistered = true ∧ b = true ∧ f.hasGetResults = true ∧
        f.enumThrows = false ∧
        ∃ r, findMarkerResult f.results = some r ∧
          r.trackingState = TrackingState.tracked ∧
          ∃ p, f.poseQuery = PoseQueryResult.found p ∧
            (updateMarkerTracking s b f).events = [Event.detected p]) ∧
    countDetected (updateMarkerTracking s b f).events =
      (if s.isMarkerDetected = false ∧
          (updateMarkerTracking s b f).state.isMarkerDetected = true
       then 1 else 0) := by
  obtain ⟨reg, det, pose⟩ := s
  obtain ⟨cap, eth, res, pq⟩ := f
  cases reg <;> cases b <;> cases cap <;> cases eth <;> cases det <;>
    simp [updateMarkerTracking, countDetected, handleMarkerLostState] <;>
    rcases hfind : findMarkerResult res with _ | r <;>
    simp [hfind, countDetected] <;>
    rcases r with ⟨m, ts⟩ <;> cases ts <;> cases pq <;>
    simp [countDetected, ne_nil_of_findMarkerResult hfind]

/-- C1 witness: from Idle, a Tracked frame with an obtainable pose fires
on-detected exactly once. -/
theorem updateMarkerTracking_detected_edge_witness :
    countDetected (updateMarkerTracking ⟨true, false, none⟩ true
      ⟨true, false, [⟨true, TrackingState.tracked⟩], PoseQueryResult.found 7⟩).events = 1 := by
  have h := (updateMarkerTracking_detected_edge ⟨true, false, none⟩ true
    ⟨true, false, [⟨true, TrackingState.tracked⟩], PoseQueryResult.found 7⟩).2
  simpa using h

/-- C2: with all guards passed and no enumeration throw, a frame whose
result set has no matching entry (including the empty set) or whose
matching entry is Untracked returns none; from Detected it fires on-lost
once, clears the pose and goes Idle; from Idle nothing fires and the
state is unchanged. -/
theorem updateMarkerTracking_lost_on_absent_or_untracked
    (s : TrackerState) (b : Bool) (f : Frame)
    (hreg : s.trackableRegistered = true) (hb : b = true)
    (hcap : f.hasGetResults = true) (hth : f.enumThrows = false)
    (hcond : findMarkerResult f.results = none ∨
      ∃ r, findMarkerResult f.results = some r ∧
        r.trackingState = TrackingState.untracked) :
    (updateMarkerTracking s b f).ret = none ∧
    (s.isMarkerDetected = true →
      (updateMarkerTracking s b f).events = [Event.lost] ∧
      (updateMarkerTracking s b f).state =
        { s with isMarkerDetected := false, currentMarkerPose := none }) ∧
    (s.isMarkerDetected = false →
      (updateMarkerTracking s b f).events = [] ∧
      (updateMarkerTracking s b f).state = s) := by
  rcases hcond with hfind | ⟨r, hfind, hts⟩
  · by_cases hemp : f.results.isEmpty <;>
      cases hdet : s.isMarkerDetected <;>
      simp [updateMarkerTracking, hreg, hb, hcap, hth, hemp, hfind, hdet,
        handleMarkerLostState]
  · have hne := ne_nil_of_findMarkerResult hfind
    cases hdet : s.isMarkerDetected <;>
      simp [updateMarkerTracking, hreg, hb, hcap, hth, hfind, hts, hdet, hne,
        handleMarkerLostState]

/-- C2 witness: an empty result set while Detected fires on-lost. -/
theorem updateMarkerTracking_lost_on_absent_or_untracked_witness :
    (updateMarkerTracking ⟨true, true, some 5⟩ true
      ⟨true, false, [], PoseQueryResult.missing⟩).events = [Event.lost] :=
  ((updateMarkerTracking_lost_on_absent_or_untracked ⟨true, true, some 5⟩ true
    ⟨true, false, [], PoseQueryResult.missing⟩ rfl rfl rfl rfl
    (Or.inl rfl)).2.1 rfl).1

/-- C3 counterexample: in the Detected state with held pose 1, an Emulated
frame whose pose query returns pose 2 does not keep the previous pose —
`currentMarkerPose` is overwritten with the freshly queried pose. -/
theorem updateMarkerTracking_emulated_keeps_pose_refuted :
    ¬ ((updateMarkerTracking ⟨true, true, some 1⟩ true
        ⟨true, false, [⟨true, TrackingState.emulated⟩],
          PoseQueryResult.found 2⟩).state.currentMarkerPose =
       (⟨true, true, some 1⟩ : TrackerState).currentMarkerPose) := by decide

/-- C3 amended: in the Detected state, an Emulated frame whose pose query
returns a pose fires no callback, stays Detected, returns that pose, and
sets `currentMarkerPose` to the queried pose (so the held pose is
unchanged only when the query returns the previously held pose). -/
theorem updateMarkerTracking_emulated_updates_pose
    (s : TrackerState) (b : Bool) (f : Frame) (r : ResultEntry) (p : Pose)
    (hreg : s.trackableRegistered = true) (hb : b = true)
    (hcap : f.hasGetResults = true) (hth : f.enumThrows = false)
    (hfind : findMarkerResult f.results = some r)
    (hts : r.trackingState = TrackingState.emulated)
    (hpq : f.poseQuery = PoseQueryResult.found p)
    (hdet : s.isMarkerDetected = true) :
    (updateMarkerTracking s b f).ret = some p ∧
    (updateMarkerTracking s b f).state = { s with currentMarkerPose := some p } ∧
    (updateMarkerTracking s b f).state.isMarkerDetected = true ∧
    (updateMarkerTracking s b f).events = [] := by
  have hne := ne_nil_of_findMarkerResult hfind
  simp [updateMarkerTracking, hreg, hb, hcap, hth, hfind, hts, hpq, hdet, hne]

/-- C3 witness: the amended behaviour at the counterexample's input. -/
theorem updateMarkerTracking_emulated_updates_pose_witness :
    (updateMarkerTracking ⟨true, true, some 1⟩ true
      ⟨true, false, [⟨true, TrackingState.emulated⟩],
        PoseQueryResult.found 2⟩).ret = some 2 :=
  (updateMarkerTracking_emulated_updates_pose ⟨true, true, some 1⟩ true
    ⟨true, false, [⟨true, TrackingState.emulated⟩], PoseQueryResult.found 2⟩
    ⟨true, TrackingState.emulated⟩ 2 rfl rfl rfl rfl rfl rfl rfl rfl).1

/-- C4: in the Detected state, a Tracked matching entry whose pose query
returns null (without throwing) leaves everything unchanged: no callback,
held pose kept, none returned, still Detected. -/
theorem updateMarkerTracking_tracked_pose_missing_detected
    (s : TrackerState) (b : Bool) (f : Frame) (r : ResultEntry)
    (hreg : s.trackableRegistered = true) (hb : b = true)
    (hcap : f.hasGetResults = true) (hth : f.enumThrows = false)
    (hfind : findMarkerResult f.results = some r)
    (hts : r.trackingState = TrackingState.tracked)
    (hpq : f.poseQuery = PoseQueryResult.missing)
    (_hdet : s.isMarkerDetected = true) :
    updateMarkerTracking s b f = ⟨none, s, []⟩ := by
  have hne := ne_nil_of_findMarkerResult hfind
  simp [updateMarkerTracking, hreg, hb, hcap, hth, hfind, hts, hpq, hne]

/-- C4 witness. -/
theorem updateMarkerTracking_tracked_pose_missing_detected_witness :
    updateMarkerTracking ⟨true, true, some 9⟩ true
      ⟨true, false, [⟨true, TrackingState.tracked⟩], PoseQueryResult.missing⟩ =
      ⟨none, ⟨true, true, some 9⟩, []⟩ :=
  updateMarkerTracking_tracked_pose_missing_detected ⟨true, true, some 9⟩ true
    ⟨true, false, [⟨true, TrackingState.tracked⟩], PoseQueryResult.missing⟩
    ⟨true, TrackingState.tracked⟩ rfl rfl rfl rfl rfl rfl rfl rfl

/-- C10: in the Idle state, a Tracked matching entry whose pose query
returns null (without throwing) returns none, fires no callback, and
leaves the state Idle with no pose. -/
theorem updateMarkerTracking_tracked_pose_missing_idle
    (s : TrackerState) (b : Bool) (f : Frame) (r : ResultEntry)
    (hreg : s.trackableRegistered = true) (hb : b = true)
    (hcap : f.hasGetResults = true) (hth : f.enumThrows = false)
    (hfind : findMarkerResult f.results = some r)
    (hts : r.trackingState = TrackingState.tracked)
    (hpq : f.poseQuery = PoseQueryResult.missing)
    (hdet : s.isMarkerDetected = false)
    (hpose : s.currentMarkerPose = none) :
    updateMarkerTracking s b f = ⟨none, s, []⟩ ∧
    (updateMarkerTracking s b f).state.isMarkerDetected = false ∧
    (updateMarkerTracking s b f).state.currentMarkerPose = none := by
  have hne := ne_nil_of_findMarkerResult hfind
  simp [updateMarkerTracking, hreg, hb, hcap, hth, hfind, hts, hpq, hne, hdet, hpose]

/-- C10 witness. -/
theorem updateMarkerTracking_tracked_pose_missing_idle_witness :
    updateMarkerTracking ⟨true, false, none⟩ true
      ⟨true, false, [⟨true, TrackingState.tracked⟩], PoseQueryResult.missing⟩ =
      ⟨none, ⟨true, false, none⟩, []⟩ :=
  (updateMarkerTracking_tracked_pose_missing_idle ⟨true, false, none⟩ true
    ⟨true, false, [⟨true, TrackingState.tracked⟩], PoseQueryResult.missing⟩
    ⟨true, TrackingState.tracked⟩ rfl rfl rfl rfl rfl rfl rfl rfl rfl).1

/-- Helper shared by the error-handling theorems: whenever the body of the
try block throws — enumeration itself, or the pose query reached through a
Tracked or Emulated matching entry — the catch block returns null with the
state untouched and no callback fired. -/
theorem updateMarkerTracking_catch_eq
    (s : TrackerState) (b : Bool) (f : Frame)
    (h : f.enumThrows = true ∨
      ∃ r, findMarkerResult f.results = some r ∧
        r.trackingState ≠ TrackingState.untracked ∧
        f.poseQuery = PoseQueryResult.throws) :
    updateMarkerTracking s b f = ⟨none, s, []⟩ := by
  rcases h with hth | ⟨r, hfind, hts, hpq⟩
  · cases hreg : s.trackableRegistered <;> cases b <;>
      cases hcap : f.hasGetResults <;>
      simp [updateMarkerTracking, hth, hreg, hcap]
  · have hne := ne_nil_of_findMarkerResult hfind
    rcases r with ⟨m, ts⟩
    cases hreg : s.trackableRegistered <;> cases b <;>
      cases hcap : f.hasGetResults <;> cases hth2 : f.enumThrows <;>
      cases ts <;>
      simp_all [updateMarkerTracking]

/-- C6: if the result-enumeration call or the pose-query call throws
during an update, the error is caught and update returns none with the
state unchanged and no callback fired — in particular a Detected state
with a Tracked entry stays Detected and on-lost does not fire. -/
theorem updateMarkerTracking_caught_error_returns_none
    (s : TrackerState) (b : Bool) (f : Frame)
    (h : f.enumThrows = true ∨
      ∃ r, findMarkerResult f.results = some r ∧
        r.trackingState ≠ TrackingState.untracked ∧
        f.poseQuery = PoseQueryResult.throws) :
    (updateMarkerTracking s b f).ret = none ∧
    (updateMarkerTracking s b f).state = s ∧
    (updateMarkerTracking s b f).events = [] := by
  rw [updateMarkerTracking_catch_eq s b f h]
  exact ⟨rfl, rfl, rfl⟩

/-- C6 witness: pose query throws on a Tracked entry while Detected. -/
theorem updateMarkerTracking_caught_error_returns_none_witness :
    (updateMarkerTracking ⟨true, true, some 2⟩ true
      ⟨true, false, [⟨true, TrackingState.tracked⟩],
        PoseQueryResult.throws⟩).state = ⟨true, true, some 2⟩ :=
  (updateMarkerTracking_caught_error_returns_none ⟨true, true, some 2⟩ true
    ⟨true, false, [⟨true, TrackingState.tracked⟩], PoseQueryResult.throws⟩
    (Or.inr ⟨⟨true, TrackingState.tracked⟩, rfl, by decide, rfl⟩)).2.1

/-- C7 counterexample: while Detected, an update whose enumeration throws
is not treated like the empty-result-set branch — on-lost does not fire,
the pose is not cleared, and the state does not become Idle. -/
theorem updateMarkerTracking_error_not_like_empty_results :
    ¬ ((updateMarkerTracking ⟨true, true, some 3⟩ true
          ⟨true, true, [], PoseQueryResult.missing⟩).events = [Event.lost] ∧
       (updateMarkerTracking ⟨true, true, some 3⟩ true
          ⟨true, true, [], PoseQueryResult.missing⟩).state.isMarkerDetected = false ∧
       (updateMarkerTracking ⟨true, true, some 3⟩ true
          ⟨true, true, [], PoseQueryResult.missing⟩).state.currentMarkerPose = none) := by
  decide

/-- C7 amended: an error thrown by enumeration or the pose query is caught
locally and never propagated, and update returns none for that frame; but
unlike the empty-result-set branch the detection state and pose are left
unchanged and no callback fires — a Detected state stays Detected with
its pose retained. -/
theorem updateMarkerTracking_caught_error_state_unchanged
    (s : TrackerState) (b : Bool) (f : Frame)
    (h : f.enumThrows = true ∨
      ∃ r, findMarkerResult f.results = some r ∧
        r.trackingState ≠ TrackingState.untracked ∧
        f.poseQuery = PoseQueryResult.throws)
    (hdet : s.isMarkerDetected = true) :
    (updateMarkerTracking s b f).ret = none ∧
    (updateMarkerTracking s b f).events = [] ∧
    (updateMarkerTracking s b f).state.isMarkerDetected = true ∧
    (updateMarkerTracking s b f).state.currentMarkerPose = s.currentMarkerPose := by
  rw [updateMarkerTracking_catch_eq s b f h]
  exact ⟨rfl, rfl, hdet, rfl⟩

/-- C7 witness: enumeration throws while Detected. -/
theorem updateMarkerTracking_caught_error_state_unchanged_witness :
    (updateMarkerTracking ⟨true, true, some 8⟩ true
      ⟨true, true, [], PoseQueryResult.missing⟩).events = [] :=
  (updateMarkerTracking_caught_error_state_unchanged ⟨true, true, some 8⟩ true
    ⟨true, true, [], PoseQueryResult.missing⟩ (Or.inl rfl) rfl).2.1

/-- Helper: a state on which an update call is a fixpoint returning a pose
and no events keeps doing so under iteration. -/
theorem runUpdates_fixpoint (b : Bool) (f : Frame) (p : Pose) (sD : TrackerState)
    (hstep : updateMarkerTracking sD b f = ⟨some p, sD, []⟩) :
    ∀ n, runUpdates sD (List.replicate n (b, f)) =
      (sD, List.replicate n (some p), []) := by
  intro n
  induction n with
  | zero => simp [runUpdates]
  | succ k ih => simp [List.replicate_succ, runUpdates, hstep, ih]

/-- C8: starting Idle, repeated update calls on one and the same frame
with a Tracked matching entry and a stable obtainable pose P return
`some P` on every call and fire on-detected exactly once, on the first
call; no further callback fires on any repeat. -/
theorem updateMarkerTracking_idempotent_tracked
    (s : TrackerState) (f : Frame) (p : Pose) (n : Nat)
    (hreg : s.trackableRegistered = true)
    (hidle : s.isMarkerDetected = false)
    (hcap : f.hasGetResults = true) (hth : f.enumThrows = false)
    (hr : ∃ r, findMarkerResult f.results = some r ∧
      r.trackingState = TrackingState.tracked)
    (hpq : f.poseQuery = PoseQueryResult.found p) :
    runUpdates s (List.replicate (n + 1) (true, f)) =
      ({ s with isMarkerDetected := true, currentMarkerPose := some p },
       List.replicate (n + 1) (some p), [Event.detected p]) := by
  obtain ⟨r, hfind, hts⟩ := hr
  have hne := ne_nil_of_findMarkerResult hfind
  have h1 : updateMarkerTracking s true f =
      ⟨some p, { s with isMarkerDetected := true, currentMarkerPose := some p },
       [Event.detected p]⟩ := by
    simp [updateMarkerTracking, hreg, hcap, hth, hfind, hts, hpq, hidle, hne]
  have h2 : updateMarkerTracking
      { s with isMarkerDetected := true, currentMarkerPose := some p } true f =
      ⟨some p, { s with isMarkerDetected := true, currentMarkerPose := some p },
       []⟩ := by
    simp [updateMarkerTracking, hreg, hcap, hth, hfind, hts, hpq, hne]
  rw [List.replicate_succ]
  simp [runUpdates, h1, runUpdates_fixpoint true f p _ h2, List.replicate_succ]

/-- C8 witness: two calls on the same Tracked frame with pose 6. -/
theorem updateMarkerTracking_idempotent_tracked_witness :
    runUpdates ⟨true, false, none⟩ (List.replicate 2
      (true, ⟨true, false, [⟨true, TrackingState.tracked⟩],
        PoseQueryResult.found 6⟩)) =
      (⟨true, true, some 6⟩, List.replicate 2 (some 6), [Event.detected 6]) :=
  updateMarkerTracking_idempotent_tracked ⟨true, false, none⟩
    ⟨true, false, [⟨true, TrackingState.tracked⟩], PoseQueryResult.found 6⟩ 6 1
    rfl rfl rfl rfl ⟨⟨true, TrackingState.tracked⟩, rfl, rfl⟩ rfl

/-- C5 counterexample: with a well-formed fetched image, a platform whose
image-tracking capability is absent but which the user-agent heuristic
classifies as supported (e.g. Android non-Chrome or desktop Chrome
without the flag) makes `initializeMarkerTracking` raise the
API-unavailable error instead of returning none. -/
theorem initializeMarkerTracking_capability_absent_raises :
    initializeMarkerTracking (FetchOutcome.ok ⟨5000, false, true⟩)
      ⟨false, false, RegistrationOutcome.rejects⟩ =
      Except.error InitError.apiUnavailable := rfl

/-- C5 amended: when the capability is absent, initialize returns none
(no error) exactly if the platform heuristic reports an unsupported
platform, and raises the API-unavailable error otherwise; whenever no
registration succeeded, no trackable is held, and every update call with
no trackable registered returns none with nothing changed. -/
theorem initializeMarkerTracking_capability_absent
    (fetch : FetchOutcome) (p : Platform)
    (hload : loadMarkerImage fetch = Except.ok ())
    (hcap : p.capabilityPresent = false) :
    (p.unsupportedPlatform = true →
      initializeMarkerTracking fetch p = Except.ok false ∧
      trackableRegisteredAfterInit fetch p = false) ∧
    (p.unsupportedPlatform = false →
      initializeMarkerTracking fetch p = Except.error InitError.apiUnavailable) ∧
    (∀ (s : TrackerState) (b : Bool) (f : Frame),
      s.trackableRegistered = false →
      updateMarkerTracking s b f = ⟨none, s, []⟩) := by
  refine ⟨?_, ?_, ?_⟩
  · intro hu
    simp [initializeMarkerTracking, trackableRegisteredAfterInit, hload,
      registerTrackableImage, hcap, hu, messageExpectedOnMacDesktop]
  · intro hu
    simp [initializeMarkerTracking, hload, registerTrackableImage, hcap, hu,
      messageExpectedOnMacDesktop]
  · intro s b f hs
    simp [updateMarkerTracking, hs]

/-- C5 witness: capability absent on an unsupported platform returns
none (modelled as `Except.ok false`, no handle registered). -/
theorem initializeMarkerTracking_capability_absent_witness :
    initializeMarkerTracking (FetchOutcome.ok ⟨5000, false, true⟩)
      ⟨false, true, RegistrationOutcome.rejects⟩ = Except.ok false :=
  ((initializeMarkerTracking_capability_absent
    (FetchOutcome.ok ⟨5000, false, true⟩)
    ⟨false, true, RegistrationOutcome.rejects⟩ rfl rfl).1 rfl).1

/-- Helper: one update call on a safe frame preserves the strengthened
pose invariant. -/
theorem invAuxC9_step (s : TrackerState) (b : Bool) (f : Frame) (obs : Option Obs)
    (hf : frameSafeForC9 f = true) (h : invAuxC9 s obs = true) :
    invAuxC9 (updateMarkerTracking s b f).state (stepObs s b f obs) = true := by
  obtain ⟨reg, det, pose⟩ := s
  obtain ⟨cap, eth, res, pq⟩ := f
  rcases hfind : findMarkerResult res with _ | ⟨m, ts⟩
  · by_cases hemp : res = [] <;>
      cases reg <;> cases b <;> cases cap <;> cases eth <;> cases det <;>
      simp_all [updateMarkerTracking, stepObs, invAuxC9, handleMarkerLostState,
        obsSupportsPose]
  · have hne := ne_nil_of_findMarkerResult hfind
    cases reg <;> cases b <;> cases cap <;> cases eth <;> cases det <;>
      cases ts <;> cases pq <;>
      simp_all [updateMarkerTracking, stepObs, invAuxC9, handleMarkerLostState,
        obsSupportsPose, poseQuerySucceeds, frameSafeForC9]

/-- Helper: the strengthened invariant holds after any run over safe
frames. -/
theorem invAuxC9_run (L : List (Bool × Frame)) :
    ∀ (s : TrackerState) (obs : Option Obs),
      (∀ bf ∈ L, frameSafeForC9 bf.2 = true) → invAuxC9 s obs = true →
      invAuxC9 (runWithObs s obs L).1 (runWithObs s obs L).2 = true := by
  induction L with
  | nil => intro s obs _ h; simpa [runWithObs] using h
  | cons bf rest ih =>
    intro s obs hL h
    obtain ⟨b, f⟩ := bf
    simp only [runWithObs]
    exact ih _ _ (fun x hx => hL x (List.mem_cons_of_mem _ hx))
      (invAuxC9_step s b f obs (hL _ (List.mem_cons_self _ _)) h)

/-- Helper: the strengthened invariant implies the spec's invariant. -/
theorem invAuxC9_implies_invC9 (s : TrackerState) (obs : Option Obs)
    (h : invAuxC9 s obs = true) : invC9 s obs = true := by
  obtain ⟨reg, det, pose⟩ := s
  cases det <;> cases pose <;> simp_all [invAuxC9, invC9]

/-- C9 counterexample: from the initial state, the sequence
[Tracked with pose 1; Emulated whose pose query throws] ends with
`currentMarkerPose = some 1` and `isDetected = true` while the last
observed quality tag is Emulated with no obtainable pose — the claimed
equivalence is false after the second call. -/
theorem detection_pose_invariant_refuted :
    invC9 (runWithObs ⟨true, false, none⟩ none
        [(true, ⟨true, false, [⟨true, TrackingState.tracked⟩],
            PoseQueryResult.found 1⟩),
         (true, ⟨true, false, [⟨true, TrackingState.emulated⟩],
            PoseQueryResult.throws⟩)]).1
      (runWithObs ⟨true, false, none⟩ none
        [(true, ⟨true, false, [⟨true, TrackingState.tracked⟩],
            PoseQueryResult.found 1⟩),
         (true, ⟨true, false, [⟨true, TrackingState.emulated⟩],
            PoseQueryResult.throws⟩)]).2 = false := by decide

/-- C9 amended: starting from {isDetected=false, currentPose=none}, after
every sequence of update calls none of whose frames pairs an Emulated
matching entry with a throwing pose query, `currentPose` is non-null iff
`isDetected` is true and the last quality tag observed was Tracked, or
was Emulated while already detected with an obtainable pose. -/
theorem detection_pose_invariant (reg : Bool) (frames : List (Bool × Frame))
    (hsafe : ∀ bf ∈ frames, frameSafeForC9 bf.2 = true) :
    invC9 (runWithObs ⟨reg, false, none⟩ none frames).1
      (runWithObs ⟨reg, false, none⟩ none frames).2 = true :=
  invAuxC9_implies_invC9 _ _
    (invAuxC9_run frames ⟨reg, false, none⟩ none hsafe rfl)

/-- C9 witness: the invariant after one Tracked frame with pose 4. -/
theorem detection_pose_invariant_witness :
    invC9 (runWithObs ⟨true, false, none⟩ none
        [(true, ⟨true, false, [⟨true, TrackingState.tracked⟩],
            PoseQueryResult.found 4⟩)]).1
      (runWithObs ⟨true, false, none⟩ none
        [(true, ⟨true, false, [⟨true, TrackingState.tracked⟩],
            PoseQueryResult.found 4⟩)]).2 = true :=
  detection_pose_invariant true
    [(true, ⟨true, false, [⟨true, TrackingState.tracked⟩],
        PoseQueryResult.found 4⟩)] (by decide)

end MarkerTracker
